import Mathlib

/-!
Shallow embedding of the video-analysis application (src/app.py) and proofs
about its per-frame analysis, report synthesis, and request orchestration.

Modelling conventions:
* Python floats are embedded as exact rationals.  Every numeric value the
  orchestrator actually produces (frame index times the fixed interval 1.0)
  is a small integer, exactly representable in binary floating point, so the
  rational embedding agrees with the Python semantics on all values reached.
* Calls to the outside world (reading a frame file, the remote vision call,
  the remote synthesis call, JSON parsing of its response, ffmpeg extraction,
  saving the upload) are oracles carried in an `Env` record; a Python
  exception is the `Except.error` branch of the oracle result.
* The Flask request handler `analyze` is embedded as a pure function from the
  environment and request to a response paired with an observation `Trace`
  recording which steps ran and how many scratch directories remain on exit
  (the `finally` block removes both with errors ignored, so every path that
  created them ends with zero remaining).
-/

namespace VideoAnalysis

/-- Per-frame analysis record built by `analyze_frame` (src/app.py lines
140-151): a display timestamp string, the timestamp in seconds, and the model
answer or an inline error string. -/
structure FrameResult where
  timestamp : String
  time_seconds : ℚ
  content : String
deriving Repr, DecidableEq

/-- One element of the four-part timeline in the final report schema. -/
structure ReportPart where
  name : String
  timerange : String
  summary : String
deriving Repr, DecidableEq

/-- One element of the seven-item advice list in the final report schema. -/
structure AdviceItem where
  title : String
  content : String
deriving Repr, DecidableEq

/-- The final report dictionary produced by `generate_final_report`
(src/app.py lines 153-264): parsed remote JSON on success, fallback record on
failure. -/
structure Report where
  genre : String
  genre_confidence : String
  genre_reason : String
  parts : List ReportPart
  advice : List AdviceItem
deriving Repr, DecidableEq

/-- Python `%02d`: decimal rendering zero-padded on the left to width two. -/
def pad2 (n : ℤ) : String :=
  if 0 ≤ n ∧ n < 10 then "0" ++ toString n else toString n

/-- The timestamp formatting of `analyze_frame` (src/app.py lines 109-112):
`minutes = int(timestamp // 60)`, `seconds = timestamp % 60`, rendered with
format `%02d` for the minutes and `%04.1f` for the seconds.  Python float
`//` and `%` floor toward negative infinity; `%04.1f` zero-pads the seconds
to two integer digits and keeps one rounded decimal digit.  Rounding is
modelled half-up on the exact rational; it coincides with the float rendering
on every value whose tenths are exact, which includes every timestamp the
orchestrator produces (integral seconds at interval 1.0). -/
def formatTime (timestamp : ℚ) : String :=
  let minutes : ℤ := Int.floor (timestamp / 60)
  let seconds : ℚ := timestamp - 60 * (minutes : ℚ)
  let tenths : ℤ := Int.floor (seconds * 10 + 1 / 2)
  pad2 minutes ++ ":" ++ pad2 (tenths / 10) ++ "." ++ toString (tenths % 10)

/-- Python `f-string` `.1f` rendering of a nonnegative value, used for the
total duration inside the synthesis prompt. -/
def formatOneDecimal (x : ℚ) : String :=
  let tenths : ℤ := Int.floor (x * 10 + 1 / 2)
  toString (tenths / 10) ++ "." ++ toString (tenths % 10)

/-- `init_openai` (src/app.py lines 52-71): re-reads the API key from the
environment, rejects an empty or malformed key, then attempts to construct
the client; a constructor exception yields `false`.  The constructor outcome
is an oracle boolean. -/
def init_openai (api_key : String) (ctorSucceeds : Bool) : Bool :=
  let key := api_key.trim
  if key = "" then false
  else if ¬ key.startsWith "sk-" then false
  else ctorSucceeds

/-- External world of one request.  Each field is the outcome of one kind of
outside call; `Except.error e` stands for a raised exception with message
`e`. -/
structure Env where
  /-- Whether the module-level `client` is non-None when the request arrives
  (src/app.py line 275). -/
  clientConfigured : Bool
  /-- Outcome of `video.save(video_path)` (line 293). -/
  saveOutcome : Except String Unit
  /-- Outcome of `extract_frames` followed by the sorted glob of
  `frame_*.jpg` (lines 299-302): an exception, or the sorted list of frame
  file paths. -/
  extractOutcome : Except String (List String)
  /-- Outcome of `encode_image_to_base64` (lines 92-95) on a given path:
  an exception while reading the file, or the base64 payload. -/
  encode : String → Except String String
  /-- Outcome of the remote vision call for a given frame number and base64
  payload (lines 117-139): an exception, or the stripped message content. -/
  vision : ℕ → String → Except String String
  /-- Outcome of the remote synthesis call on a given prompt (lines 241-251):
  an exception, or the raw message content. -/
  synthesize : String → Except String String
  /-- Outcome of `json.loads` on the synthesis response (line 254): an
  exception, or the parsed report. -/
  parseReport : String → Except String Report

/-- The parts of the incoming request `analyze` inspects: whether the
multipart field `video` is present, and the uploaded filename. -/
structure Request where
  hasVideoField : Bool
  filename : String
deriving Repr, DecidableEq

/-- `analyze_frame` (src/app.py lines 97-151).  The timestamp and its display
string are computed first, from the frame number and interval alone.  The
base64 encoding (line 114) happens before the `try` block, so an encoding
exception propagates (`Except.error`).  The remote call sits inside the
`try`: a success yields the content, a failure is downgraded to an inline
error string, and in both branches the result carries the same timestamp
fields. -/
def analyze_frame (env : Env) (image_path : String) (frame_number : ℕ)
    (interval : ℚ) : Except String FrameResult :=
  let timestamp : ℚ := frame_number * interval
  let time_str : String := formatTime timestamp
  match env.encode image_path with
  | .error e => .error e
  | .ok base64_image =>
    match env.vision frame_number base64_image with
    | .ok result =>
      .ok { timestamp := time_str, time_seconds := timestamp, content := result }
    | .error e =>
      .ok { timestamp := time_str, time_seconds := timestamp,
            content := "エラー: " ++ e }

/-- The fixed instruction text of the vision request (src/app.py line 125). -/
def visionInstruction : String :=
  "この画像を分析して、以下の形式で1行で簡潔に答えてください：\n内容: [何が映っているか] | テキスト: [画像内のテキスト、なければ「なし」]"

/-- The per-frame prompt lines, timestamp and content joined by a bar, the
lines joined with newlines (src/app.py lines 164-167). -/
def framesSummary (frame_results : List FrameResult) : String :=
  String.intercalate "\n"
    (frame_results.map (fun r => r.timestamp ++ " | " ++ r.content))

/-- `frame_results[-1]['time_seconds'] if frame_results else 0`
(src/app.py line 170). -/
def totalDuration (frame_results : List FrameResult) : ℚ :=
  match frame_results.getLast? with
  | some r => r.time_seconds
  | none => 0

/-- The fixed tail of the synthesis prompt (src/app.py lines 177-238): the
requested JSON schema, written here with the literal braces that the Python
doubled braces denote, followed by the closing instructions. -/
def synthesisSchemaText : String :=
  String.intercalate "\n" [
    "この動画を分析して、以下の形式でJSON形式で回答してください：",
    "",
    "\x7b",
    "  \"genre\": \"動画のジャンル（例: ビジネス解説系、Vlog、ゲーム実況など）\",",
    "  \"genre_confidence\": \"判定の信頼度（パーセント、数値のみ）\",",
    "  \"genre_reason\": \"このジャンルと判定した理由（1-2文）\",",
    "  \"parts\": [",
    "    \x7b",
    "      \"name\": \"Aパート\",",
    "      \"timerange\": \"0:00-0:15\",",
    "      \"summary\": \"このパートの内容要約\"",
    "    \x7d,",
    "    \x7b",
    "      \"name\": \"Bパート\",",
    "      \"timerange\": \"0:15-0:30\",",
    "      \"summary\": \"このパートの内容要約\"",
    "    \x7d,",
    "    \x7b",
    "      \"name\": \"Cパート\",",
    "      \"timerange\": \"0:30-0:45\",",
    "      \"summary\": \"このパートの内容要約\"",
    "    \x7d,",
    "    \x7b",
    "      \"name\": \"Dパート\",",
    "      \"timerange\": \"0:45-1:00\",",
    "      \"summary\": \"このパートの内容要約\"",
    "    \x7d",
    "  ],",
    "  \"advice\": [",
    "    \x7b",
    "      \"title\": \"1. カット編集\",",
    "      \"content\": \"具体的なアドバイス（4-6行程度）\"",
    "    \x7d,",
    "    \x7b",
    "      \"title\": \"2. テロップ戦略\",",
    "      \"content\": \"具体的なアドバイス\"",
    "    \x7d,",
    "    \x7b",
    "      \"title\": \"3. BGM・効果音\",",
    "      \"content\": \"具体的なアドバイス\"",
    "    \x7d,",
    "    \x7b",
    "      \"title\": \"4. 視覚効果\",",
    "      \"content\": \"具体的なアドバイス\"",
    "    \x7d,",
    "    \x7b",
    "      \"title\": \"5. サムネイル設計\",",
    "      \"content\": \"具体的なアドバイス\"",
    "    \x7d,",
    "    \x7b",
    "      \"title\": \"6. 構成の改善\",",
    "      \"content\": \"具体的なアドバイス\"",
    "    \x7d,",
    "    \x7b",
    "      \"title\": \"7. トレンド対応\",",
    "      \"content\": \"このジャンルの最新トレンド\"",
    "    \x7d",
    "  ]",
    "\x7d",
    "",
    "動画を4つのパートに均等分割して、各パートの内容をまとめてください。",
    "編集アドバイスは、このジャンルに特化した実践的で具体的な内容にしてください。"]

/-- The full synthesis prompt (src/app.py lines 173-238): header with the
total duration rendered at one decimal, the per-frame summary block, and the
fixed schema tail. -/
def buildSynthesisPrompt (total_duration : ℚ) (frames_summary : String) :
    String :=
  "以下は動画の各フレーム分析結果です（総尺: " ++
    formatOneDecimal total_duration ++ "秒）：\n\n" ++ frames_summary ++
    "\n\n" ++ synthesisSchemaText

/-- The fallback dictionary of the `except` branch of `generate_final_report`
(src/app.py lines 257-264). -/
def fallbackReport (e : String) : Report :=
  { genre := "エラー"
    genre_confidence := "0"
    genre_reason := "分析中にエラーが発生しました: " ++ e
    parts := []
    advice := [] }

/-- `generate_final_report` (src/app.py lines 153-264): build the summary
block and prompt, call the remote model, parse the JSON answer.  Both the
remote call and the parse sit inside one `try`; any failure of either yields
the fallback report, and the function itself never raises (it is total). -/
def generate_final_report (env : Env) (frame_results : List FrameResult) :
    Report :=
  let prompt := buildSynthesisPrompt (totalDuration frame_results)
    (framesSummary frame_results)
  match env.synthesize prompt with
  | .ok raw =>
    match env.parseReport raw with
    | .ok result => result
    | .error e => fallbackReport e
  | .error e => fallbackReport e

/-- Response of the `/analyze` route: the success JSON with frame count and
report, or an error JSON with its HTTP status code. -/
inductive Response where
  | success (total_frames : ℕ) (report : Report)
  | error (message : String) (status : ℕ)
deriving Repr, DecidableEq

/-- Observation of one run of `analyze`: which steps ran, how many of the two
scratch directories still exist when the handler returns, and the list of
frame results accumulated by the per-frame loop (empty if the loop never
completed). -/
structure Trace where
  /-- Whether `init_openai` was invoked during the request.  The handler
  body (src/app.py lines 271-345) never calls it: the client is only checked
  at line 275. -/
  initCalled : Bool
  /-- Whether the two `tempfile.mkdtemp()` calls (lines 287-288) ran. -/
  dirsCreated : Bool
  /-- Number of the two scratch directories still existing on return; the
  `finally` block (lines 342-345) removes both, ignoring errors. -/
  dirsRemaining : ℕ
  /-- Whether `extract_frames` (line 299) was invoked. -/
  extractCalled : Bool
  /-- Number of `analyze_frame` invocations (line 315). -/
  frameCalls : ℕ
  /-- Whether `generate_final_report` (line 322) was invoked. -/
  synthCalled : Bool
  /-- The `frame_results` list passed to `generate_final_report`. -/
  frameResults : List FrameResult
deriving Repr, DecidableEq

/-- Error message of src/app.py lines 276. -/
def errNoClient : String := "OpenAI APIキーが設定されていません"

/-- Error message of src/app.py lines 279 and 284 (missing field and empty
filename use the same text). -/
def errNoFile : String := "動画ファイルが選択されていません"

/-- Error message of src/app.py line 305. -/
def errNoFrames : String := "フレームが抽出できませんでした"

/-- The per-frame loop (src/app.py lines 313-316): `enumerate(frames,
start=1)`, one `analyze_frame` call per frame, results accumulated in order.
Returns the number of `analyze_frame` invocations together with either the
accumulated list or the first propagated exception (which aborts the loop).
-/
def runFramesFrom (env : Env) (interval : ℚ) :
    ℕ → List String → ℕ × Except String (List FrameResult)
  | _, [] => (0, .ok [])
  | i, frame_path :: rest =>
    match analyze_frame env frame_path i interval with
    | .error e => (1, .error e)
    | .ok result =>
      let out := runFramesFrom env interval (i + 1) rest
      (out.1 + 1,
        match out.2 with
        | .error e => .error e
        | .ok results => .ok (result :: results))

/-- The `/analyze` handler (src/app.py lines 271-345).  Guards run in source
order: unconfigured client (line 275), missing `video` field (line 278),
empty filename (line 283) — all three return before the scratch directories
are created.  Then the two `mkdtemp` calls run, and everything after them is
inside `try ... except ... finally`: an exception from saving, extraction,
or the per-frame loop is converted to a 500 error with its message, the
zero-frame case returns its own 500 error, and on the success path the
accumulated results feed `generate_final_report` (which cannot raise).  The
`finally` block removes both directories on every one of these paths. -/
def analyze (env : Env) (req : Request) : Response × Trace :=
  if env.clientConfigured = false then
    (.error errNoClient 500,
     { initCalled := false, dirsCreated := false, dirsRemaining := 0,
       extractCalled := false, frameCalls := 0, synthCalled := false,
       frameResults := [] })
  else if req.hasVideoField = false then
    (.error errNoFile 400,
     { initCalled := false, dirsCreated := false, dirsRemaining := 0,
       extractCalled := false, frameCalls := 0, synthCalled := false,
       frameResults := [] })
  else if req.filename = "" then
    (.error errNoFile 400,
     { initCalled := false, dirsCreated := false, dirsRemaining := 0,
       extractCalled := false, frameCalls := 0, synthCalled := false,
       frameResults := [] })
  else
    match env.saveOutcome with
    | .error e =>
      (.error e 500,
       { initCalled := false, dirsCreated := true, dirsRemaining := 0,
         extractCalled := false, frameCalls := 0, synthCalled := false,
         frameResults := [] })
    | .ok _ =>
      match env.extractOutcome with
      | .error e =>
        (.error e 500,
         { initCalled := false, dirsCreated := true, dirsRemaining := 0,
           extractCalled := true, frameCalls := 0, synthCalled := false,
           frameResults := [] })
      | .ok frames =>
        if frames = [] then
          (.error errNoFrames 500,
           { initCalled := false, dirsCreated := true, dirsRemaining := 0,
             extractCalled := true, frameCalls := 0, synthCalled := false,
             frameResults := [] })
        else
          match runFramesFrom env 1 1 frames with
          | (calls, .error e) =>
            (.error e 500,
             { initCalled := false, dirsCreated := true, dirsRemaining := 0,
               extractCalled := true, frameCalls := calls,
               synthCalled := false, frameResults := [] })
          | (calls, .ok frame_results) =>
            (.success frames.length (generate_final_report env frame_results),
             { initCalled := false, dirsCreated := true, dirsRemaining := 0,
               extractCalled := true, frameCalls := calls,
               synthCalled := true, frameResults := frame_results })

/-- Replace the vision oracle for frame number `k` only, leaving every other
outcome of every other frame and the rest of the environment untouched. -/
def Env.withVision (env : Env) (k : ℕ)
    (v : String → Except String String) : Env :=
  { env with vision := fun i => if i = k then v else env.vision i }

/-- On a natural-number timestamp the Python format reduces to integer
division: two-digit minutes, two-digit seconds, and a zero tenths digit. -/
theorem formatTime_natCast (n : ℕ) :
    formatTime (n : ℚ) =
      pad2 ((n : ℤ) / 60) ++ ":" ++ pad2 ((n : ℤ) % 60) ++ "." ++ "0" := by
  have hm : ⌊(n : ℚ) / 60⌋ = (n : ℤ) / 60 := by
    have h := Rat.floor_natCast_div_natCast n 60
    push_cast at h ⊢
    exact h
  have hsec : ((n : ℚ) - 60 * (((n : ℤ) / 60 : ℤ) : ℚ))
      = (((n : ℤ) % 60 : ℤ) : ℚ) := by
    have hd : (n : ℤ) % 60 = (n : ℤ) - 60 * ((n : ℤ) / 60) := by omega
    rw [hd]
    push_cast
    ring
  have htenths : ⌊((((n : ℤ) % 60 : ℤ) : ℚ)) * 10 + 1 / 2⌋
      = 10 * ((n : ℤ) % 60) := by
    have hhalf : ⌊(1 / 2 : ℚ)⌋ = 0 := by
      have h := Rat.floor_natCast_div_natCast 1 2
      push_cast at h
      omega
    have hcast : ((((n : ℤ) % 60 : ℤ) : ℚ)) * 10 + 1 / 2
        = ((10 * ((n : ℤ) % 60) : ℤ) : ℚ) + 1 / 2 := by
      push_cast
      ring
    rw [hcast, Int.floor_int_add, hhalf]
    ring
  simp only [formatTime]
  rw [hm, hsec, htenths]
  rw [show 10 * ((n : ℤ) % 60) / 10 = (n : ℤ) % 60 by omega]
  rw [show 10 * ((n : ℤ) % 60) % 10 = 0 by omega]
  rfl

/-- A failed encode propagates out of `analyze_frame` unchanged: the remote
call is never consulted. -/
theorem analyze_frame_encode_error (env : Env) (p : String) (i : ℕ)
    (interval : ℚ) (e : String) (h : env.encode p = .error e) :
    analyze_frame env p i interval = .error e := by
  simp [analyze_frame, h]

/-- The exact result of `analyze_frame` when the remote vision call fails:
the timestamp fields are still filled in and the content is the inline error
string. -/
theorem analyze_frame_vision_error (env : Env) (p : String) (i : ℕ)
    (interval : ℚ) (b e : String) (hb : env.encode p = .ok b)
    (hv : env.vision i b = .error e) :
    analyze_frame env p i interval =
      .ok { timestamp := formatTime ((i : ℚ) * interval),
            time_seconds := (i : ℚ) * interval,
            content := "エラー: " ++ e } := by
  simp [analyze_frame, hb, hv]

/-- The exact result of `analyze_frame` when the remote vision call
succeeds. -/
theorem analyze_frame_vision_ok (env : Env) (p : String) (i : ℕ)
    (interval : ℚ) (b c : String) (hb : env.encode p = .ok b)
    (hv : env.vision i b = .ok c) :
    analyze_frame env p i interval =
      .ok { timestamp := formatTime ((i : ℚ) * interval),
            time_seconds := (i : ℚ) * interval, content := c } := by
  simp [analyze_frame, hb, hv]

/-- A successful encode makes `analyze_frame` total: both vision branches
return a `FrameResult`. -/
theorem analyze_frame_ok_of_encode (env : Env) (p : String) (i : ℕ)
    (interval : ℚ) (b : String) (hb : env.encode p = .ok b) :
    ∃ r, analyze_frame env p i interval = .ok r := by
  cases hv : env.vision i b with
  | ok c => exact ⟨_, analyze_frame_vision_ok env p i interval b c hb hv⟩
  | error e => exact ⟨_, analyze_frame_vision_error env p i interval b e hb hv⟩

/-- Whatever the oracles do, a returned `FrameResult` carries the timestamp
fields computed from the frame number and interval alone. -/
theorem analyze_frame_ok_fields (env : Env) (p : String) (i : ℕ)
    (interval : ℚ) (r : FrameResult)
    (h : analyze_frame env p i interval = .ok r) :
    r.timestamp = formatTime ((i : ℚ) * interval) ∧
      r.time_seconds = (i : ℚ) * interval := by
  cases he : env.encode p with
  | error e =>
    rw [analyze_frame_encode_error env p i interval e he] at h
    cases h
  | ok b =>
    cases hv : env.vision i b with
    | ok c =>
      rw [analyze_frame_vision_ok env p i interval b c he hv] at h
      injection h with h
      subst h
      exact ⟨rfl, rfl⟩
    | error e =>
      rw [analyze_frame_vision_error env p i interval b e he hv] at h
      injection h with h
      subst h
      exact ⟨rfl, rfl⟩

/-- Changing the vision oracle of frame `k` does not change `analyze_frame`
on any other frame number. -/
theorem analyze_frame_withVision_ne (env : Env) (k : ℕ)
    (v : String → Except String String) (p : String) (j : ℕ) (interval : ℚ)
    (h : j ≠ k) :
    analyze_frame (env.withVision k v) p j interval =
      analyze_frame env p j interval := by
  unfold analyze_frame Env.withVision
  simp [h]

/-- If every frame file in the list encodes successfully, the loop performs
one call per frame and returns the full result list, whose entry at each
position is the `analyze_frame` output for the corresponding 1-based frame
number. -/
theorem runFramesFrom_ok (env : Env) (interval : ℚ) :
    ∀ (frames : List String) (i : ℕ),
      (∀ p ∈ frames, ∃ b, env.encode p = Except.ok b) →
      ∃ results,
        runFramesFrom env interval i frames =
          (frames.length, Except.ok results) ∧
        results.length = frames.length ∧
        (∀ m p, frames.get? m = some p →
          ∃ r, analyze_frame env p (i + m) interval = Except.ok r ∧
            results.get? m = some r) := by
  intro frames
  induction frames with
  | nil =>
    intro i _
    refine ⟨[], by simp [runFramesFrom], rfl, ?_⟩
    intro m p hp
    simp at hp
  | cons q rest ih =>
    intro i h
    obtain ⟨b, hb⟩ := h q (List.mem_cons_self q rest)
    obtain ⟨r₀, hr₀⟩ := analyze_frame_ok_of_encode env q i interval b hb
    obtain ⟨results, hrun, hlen, hchar⟩ :=
      ih (i + 1) (fun p hp => h p (List.mem_cons_of_mem q hp))
    refine ⟨r₀ :: results, ?_, by simp [hlen], ?_⟩
    · simp [runFramesFrom, hr₀, hrun]
    · intro m p hp
      cases m with
      | zero =>
        rw [List.get?_cons_zero] at hp
        injection hp with hp
        subst hp
        exact ⟨r₀, by simpa using hr₀, by simp⟩
      | succ m' =>
        rw [List.get?_cons_succ] at hp
        obtain ⟨r, hr, hres⟩ := hchar m' p hp
        refine ⟨r, ?_, by simpa using hres⟩
        rw [show i + (m' + 1) = i + 1 + m' by omega]
        exact hr

/-- If some frame file fails to encode while every earlier one succeeded,
the loop raises exactly there: the failing call is the last one made and the
exception carries the encode error message. -/
theorem runFramesFrom_abort (env : Env) (interval : ℚ) :
    ∀ (pre : List String) (i : ℕ) (p : String) (post : List String)
      (e : String),
      (∀ q ∈ pre, ∃ b, env.encode q = Except.ok b) →
      env.encode p = Except.error e →
      runFramesFrom env interval i (pre ++ p :: post) =
        (pre.length + 1, Except.error e) := by
  intro pre
  induction pre with
  | nil =>
    intro i p post e _ hp
    simp [runFramesFrom, analyze_frame_encode_error env p i interval e hp]
  | cons q rest ih =>
    intro i p post e h hp
    obtain ⟨b, hb⟩ := h q (List.mem_cons_self q rest)
    obtain ⟨r₀, hr₀⟩ := analyze_frame_ok_of_encode env q i interval b hb
    have hrec := ih (i + 1) p post e
      (fun x hx => h x (List.mem_cons_of_mem q hx)) hp
    simp [runFramesFrom, hr₀, hrec]
    try omega

/-- Past the three guards, a saved upload and a non-empty extraction leave
the handler's result entirely determined by the per-frame loop. -/
theorem analyze_run (env : Env) (req : Request) (frames : List String)
    (hcl : env.clientConfigured = true) (hvf : req.hasVideoField = true)
    (hfn : req.filename ≠ "") (hsave : env.saveOutcome = .ok ())
    (hext : env.extractOutcome = .ok frames) (hne : frames ≠ []) :
    analyze env req =
      match runFramesFrom env 1 1 frames with
      | (calls, .error e) =>
        (.error e 500,
         { initCalled := false, dirsCreated := true, dirsRemaining := 0,
           extractCalled := true, frameCalls := calls,
           synthCalled := false, frameResults := [] })
      | (calls, .ok frame_results) =>
        (.success frames.length (generate_final_report env frame_results),
         { initCalled := false, dirsCreated := true, dirsRemaining := 0,
           extractCalled := true, frameCalls := calls,
           synthCalled := true, frameResults := frame_results }) := by
  unfold analyze
  rw [hcl, hvf, hsave, hext]
  simp [hfn, hne]

/-- Every run of the handler ends with zero scratch directories, whether or
not it created them. -/
theorem analyze_dirsRemaining (env : Env) (req : Request) :
    (analyze env req).2.dirsRemaining = 0 := by
  unfold analyze
  split
  · rfl
  split
  · rfl
  split
  · rfl
  cases env.saveOutcome with
  | error e => rfl
  | ok u =>
    cases env.extractOutcome with
    | error e => rfl
    | ok frames =>
      by_cases hne : frames = []
      · simp [hne]
      · simp only [if_neg hne]
        rcases runFramesFrom env 1 1 frames with ⟨calls, out⟩
        cases out with
        | error e => rfl
        | ok results => rfl

/-- On a loop that completes, the handler returns success with the frame
count and the synthesized report, and the trace records the synthesis call
and the accumulated results. -/
theorem analyze_run_ok (env : Env) (req : Request) (frames : List String)
    (hcl : env.clientConfigured = true) (hvf : req.hasVideoField = true)
    (hfn : req.filename ≠ "") (hsave : env.saveOutcome = .ok ())
    (hext : env.extractOutcome = .ok frames) (hne : frames ≠ [])
    (results : List FrameResult) (calls : ℕ)
    (hrun : runFramesFrom env 1 1 frames = (calls, Except.ok results)) :
    analyze env req =
      (.success frames.length (generate_final_report env results),
       { initCalled := false, dirsCreated := true, dirsRemaining := 0,
         extractCalled := true, frameCalls := calls, synthCalled := true,
         frameResults := results }) := by
  rw [analyze_run env req frames hcl hvf hfn hsave hext hne, hrun]

/-- On a loop that raises, the exception reaches the top-level handler: a 500
error with the exception message, no synthesis call, directories cleaned. -/
theorem analyze_run_error (env : Env) (req : Request) (frames : List String)
    (hcl : env.clientConfigured = true) (hvf : req.hasVideoField = true)
    (hfn : req.filename ≠ "") (hsave : env.saveOutcome = .ok ())
    (hext : env.extractOutcome = .ok frames) (hne : frames ≠ [])
    (calls : ℕ) (e : String)
    (hrun : runFramesFrom env 1 1 frames = (calls, Except.error e)) :
    analyze env req =
      (.error e 500,
       { initCalled := false, dirsCreated := true, dirsRemaining := 0,
         extractCalled := true, frameCalls := calls, synthCalled := false,
         frameResults := [] }) := by
  rw [analyze_run env req frames hcl hvf hfn hsave hext hne, hrun]

/-- A report as the remote model would return it, used in concrete runs. -/
def sampleReport : Report :=
  { genre := "Vlog", genre_confidence := "90", genre_reason := "日常の記録",
    parts := [], advice := [] }

/-- A well-formed upload request. -/
def reqStd : Request := { hasVideoField := true, filename := "video.mp4" }

/-- A fully healthy environment: client configured, three frames extracted,
every outside call succeeding. -/
def baseEnv : Env :=
  { clientConfigured := true
    saveOutcome := .ok ()
    extractOutcome := .ok ["frame_0001.jpg", "frame_0002.jpg", "frame_0003.jpg"]
    encode := fun _ => .ok "IMG"
    vision := fun _ _ => .ok "内容: 人物 | テキスト: なし"
    synthesize := fun _ => .ok "RAW"
    parseReport := fun _ => .ok sampleReport }

/-- `baseEnv` with the remote synthesis call failing. -/
def envSynthFail : Env := { baseEnv with synthesize := fun _ => .error "接続エラー" }

/-- `baseEnv` with the client never configured. -/
def envNoClient : Env := { baseEnv with clientConfigured := false }

/-- `baseEnv` with an extraction that yields no frame files. -/
def envZero : Env := { baseEnv with extractOutcome := .ok [] }

/-- `baseEnv` with every remote vision call failing. -/
def envVisionFail : Env := { baseEnv with vision := fun _ _ => .error "timeout" }

/-- `baseEnv` with the remote vision call failing on frame 2 only. -/
def envFrameFail : Env :=
  { baseEnv with
    vision := fun i _ =>
      if i = 2 then .error "接続失敗" else .ok "内容: 人物 | テキスト: なし" }

/-- `baseEnv` where the second frame file cannot be read. -/
def envEncodeFail : Env :=
  { baseEnv with
    encode := fun p =>
      if p = "frame_0002.jpg" then .error "ファイルが読めません" else .ok "IMG" }

/-- A request whose uploaded file has an empty filename. -/
def reqEmptyName : Request := { hasVideoField := true, filename := "" }

/-- C3: whenever the remote synthesis call raises, or its response fails to
parse as JSON, `generate_final_report` returns (never raises) the fallback
report: genre is the error marker, confidence is the string "0", the error
message is embedded in the genre reason, and the parts and advice arrays are
empty. -/
theorem generate_final_report_fallback (env : Env)
    (frame_results : List FrameResult) (e : String)
    (h : env.synthesize (buildSynthesisPrompt (totalDuration frame_results)
          (framesSummary frame_results)) = .error e ∨
        ∃ raw,
          env.synthesize (buildSynthesisPrompt (totalDuration frame_results)
            (framesSummary frame_results)) = .ok raw ∧
          env.parseReport raw = .error e) :
    generate_final_report env frame_results = fallbackReport e ∧
    (generate_final_report env frame_results).genre = "エラー" ∧
    (generate_final_report env frame_results).genre_confidence = "0" ∧
    (generate_final_report env frame_results).genre_reason =
      "分析中にエラーが発生しました: " ++ e ∧
    (generate_final_report env frame_results).parts = [] ∧
    (generate_final_report env frame_results).advice = [] := by
  have hmain : generate_final_report env frame_results = fallbackReport e := by
    rcases h with h | ⟨raw, h1, h2⟩
    · simp [generate_final_report, h]
    · simp [generate_final_report, h1, h2]
  refine ⟨hmain, ?_, ?_, ?_, ?_, ?_⟩ <;> rw [hmain] <;> rfl

/-- C3 witness: a synthesis failure on an empty result list produces exactly
the fallback report. -/
theorem generate_final_report_fallback_witness :
    generate_final_report envSynthFail [] = fallbackReport "接続エラー" :=
  (generate_final_report_fallback envSynthFail [] "接続エラー" (Or.inl rfl)).1

/-- C4: when extraction yields zero frame files, the handler returns the
no-frames 500 error; the per-frame analysis step is never invoked
(`frameCalls = 0`) and neither is synthesis (`synthCalled = false`). -/
theorem zero_frames_short_circuits (env : Env) (req : Request)
    (hcl : env.clientConfigured = true) (hvf : req.hasVideoField = true)
    (hfn : req.filename ≠ "") (hsave : env.saveOutcome = .ok ())
    (hext : env.extractOutcome = .ok []) :
    analyze env req =
      (.error errNoFrames 500,
       { initCalled := false, dirsCreated := true, dirsRemaining := 0,
         extractCalled := true, frameCalls := 0, synthCalled := false,
         frameResults := [] }) := by
  unfold analyze
  rw [hcl, hvf, hsave, hext]
  simp [hfn]

/-- C4 witness. -/
theorem zero_frames_short_circuits_witness :
    analyze envZero reqStd =
      (.error errNoFrames 500,
       { initCalled := false, dirsCreated := true, dirsRemaining := 0,
         extractCalled := true, frameCalls := 0, synthCalled := false,
         frameResults := [] }) :=
  zero_frames_short_circuits envZero reqStd rfl rfl (by decide) rfl rfl

/-- C5: every request that reaches the creation of the two scratch
directories ends with both removed, on every exit path (the trace counts the
directories still existing when the handler returns). -/
theorem scratch_dirs_removed (env : Env) (req : Request)
    (_h : (analyze env req).2.dirsCreated = true) :
    (analyze env req).2.dirsRemaining = 0 :=
  analyze_dirsRemaining env req

/-- C5 witness: a run that created the directories, shown to end with none
remaining. -/
theorem scratch_dirs_removed_witness :
    (analyze envZero reqStd).2.dirsCreated = true ∧
      (analyze envZero reqStd).2.dirsRemaining = 0 :=
  ⟨rfl, scratch_dirs_removed envZero reqStd rfl⟩

/-- C6 counterexample: with the client unconfigured, the handler returns the
configuration error immediately; `init_openai` is not invoked
(`initCalled = false`, as the handler body never calls it) and the request
does not proceed (no extraction, no frame analysis, no synthesis). -/
theorem no_lazy_init_counterexample :
    analyze envNoClient reqStd =
      (Response.error errNoClient 500,
       { initCalled := false, dirsCreated := false, dirsRemaining := 0,
         extractCalled := false, frameCalls := 0, synthCalled := false,
         frameResults := [] }) := rfl

/-- C6 amended: when the remote-API client has not been configured, the
handler only returns the configuration error (HTTP 500); it does not
re-initialize the client and does not proceed with the request. -/
theorem unconfigured_client_returns_error (env : Env) (req : Request)
    (h : env.clientConfigured = false) :
    analyze env req =
      (Response.error errNoClient 500,
       { initCalled := false, dirsCreated := false, dirsRemaining := 0,
         extractCalled := false, frameCalls := 0, synthCalled := false,
         frameResults := [] }) := by
  unfold analyze
  rw [h]
  simp

/-- C6 amended witness. -/
theorem unconfigured_client_returns_error_witness :
    analyze envNoClient reqStd =
      (Response.error errNoClient 500,
       { initCalled := false, dirsCreated := false, dirsRemaining := 0,
         extractCalled := false, frameCalls := 0, synthCalled := false,
         frameResults := [] }) :=
  unconfigured_client_returns_error envNoClient reqStd rfl

/-- C7: an upload with an empty filename is rejected with the no-file 400
error before the scratch directories are created and before the decoder is
invoked. -/
theorem empty_filename_rejected (env : Env) (req : Request)
    (hcl : env.clientConfigured = true) (hvf : req.hasVideoField = true)
    (hfn : req.filename = "") :
    analyze env req =
      (Response.error errNoFile 400,
       { initCalled := false, dirsCreated := false, dirsRemaining := 0,
         extractCalled := false, frameCalls := 0, synthCalled := false,
         frameResults := [] }) := by
  unfold analyze
  rw [hcl, hvf, hfn]
  simp

/-- C7 witness. -/
theorem empty_filename_rejected_witness :
    analyze baseEnv reqEmptyName =
      (Response.error errNoFile 400,
       { initCalled := false, dirsCreated := false, dirsRemaining := 0,
         extractCalled := false, frameCalls := 0, synthCalled := false,
         frameResults := [] }) :=
  empty_filename_rejected baseEnv reqEmptyName rfl rfl rfl

/-- C10: any two `FrameResult`s returned by `analyze_frame` for the same
frame number and interval — regardless of the outcome or content of the
remote call, or any other difference of environment — carry identical
timestamp fields, equal to the values computed from the frame number and
interval alone. -/
theorem frame_timestamp_independent (env₁ env₂ : Env) (p : String) (i : ℕ)
    (interval : ℚ) (r₁ r₂ : FrameResult)
    (h₁ : analyze_frame env₁ p i interval = .ok r₁)
    (h₂ : analyze_frame env₂ p i interval = .ok r₂) :
    r₁.timestamp = r₂.timestamp ∧ r₁.time_seconds = r₂.time_seconds ∧
    r₁.timestamp = formatTime ((i : ℚ) * interval) ∧
    r₁.time_seconds = (i : ℚ) * interval := by
  obtain ⟨a1, b1⟩ := analyze_frame_ok_fields env₁ p i interval r₁ h₁
  obtain ⟨a2, b2⟩ := analyze_frame_ok_fields env₂ p i interval r₂ h₂
  exact ⟨a1.trans a2.symm, b1.trans b2.symm, a1, b1⟩

/-- The frame-1 result of a successful vision call in `baseEnv`. -/
def witnessFrameOk : FrameResult :=
  { timestamp := formatTime (((1 : ℕ) : ℚ) * 1),
    time_seconds := ((1 : ℕ) : ℚ) * 1,
    content := "内容: 人物 | テキスト: なし" }

/-- The frame-1 result of a failed vision call in `envVisionFail`. -/
def witnessFrameErr : FrameResult :=
  { timestamp := formatTime (((1 : ℕ) : ℚ) * 1),
    time_seconds := ((1 : ℕ) : ℚ) * 1,
    content := "エラー: " ++ "timeout" }

/-- C10 witness: the success-branch and failure-branch results for frame 1
share their timestamp fields. -/
theorem frame_timestamp_independent_witness :
    witnessFrameOk.timestamp = witnessFrameErr.timestamp ∧
    witnessFrameOk.time_seconds = witnessFrameErr.time_seconds ∧
    witnessFrameOk.timestamp = formatTime (((1 : ℕ) : ℚ) * 1) ∧
    witnessFrameOk.time_seconds = ((1 : ℕ) : ℚ) * 1 :=
  frame_timestamp_independent baseEnv envVisionFail "frame_0001.jpg" 1 1
    witnessFrameOk witnessFrameErr
    (analyze_frame_vision_ok baseEnv "frame_0001.jpg" 1 1 "IMG"
      "内容: 人物 | テキスト: なし" rfl rfl)
    (analyze_frame_vision_error envVisionFail "frame_0001.jpg" 1 1 "IMG"
      "timeout" rfl rfl)

/-- C2: with N ≥ 1 extracted frames (all readable), the handler returns
success with exactly N frame results, in order: the result at 0-based
position m carries `time_seconds = (m + 1) × 1.0`, and the `time_seconds`
sequence is monotonically non-decreasing.  No assumption is made on the
vision oracle: remote failures do not change the count or the timestamps. -/
theorem pipeline_produces_all_frames (env : Env) (req : Request)
    (frames : List String)
    (hcl : env.clientConfigured = true) (hvf : req.hasVideoField = true)
    (hfn : req.filename ≠ "") (hsave : env.saveOutcome = .ok ())
    (hext : env.extractOutcome = .ok frames) (hne : frames ≠ [])
    (henc : ∀ p ∈ frames, ∃ b, env.encode p = Except.ok b) :
    (analyze env req).2.frameResults.length = frames.length ∧
    (∃ rep, (analyze env req).1 = Response.success frames.length rep) ∧
    (∀ m r, (analyze env req).2.frameResults.get? m = some r →
      r.time_seconds = ((m + 1 : ℕ) : ℚ) * 1) ∧
    List.Pairwise (fun a b : FrameResult => a.time_seconds ≤ b.time_seconds)
      (analyze env req).2.frameResults := by
  obtain ⟨results, hrun, hlen, hchar⟩ := runFramesFrom_ok env 1 frames 1 henc
  have ha := analyze_run_ok env req frames hcl hvf hfn hsave hext hne results
    frames.length hrun
  have hts : ∀ m r, results.get? m = some r →
      r.time_seconds = ((m + 1 : ℕ) : ℚ) * 1 := by
    intro m r hm
    have hmlt : m < results.length := by
      by_contra hcon
      rw [List.get?_eq_none.mpr (Nat.le_of_not_lt hcon)] at hm
      cases hm
    have hmf : m < frames.length := hlen ▸ hmlt
    obtain ⟨r', hr', hres'⟩ := hchar m (frames.get ⟨m, hmf⟩)
      (List.get?_eq_get hmf)
    rw [hm] at hres'
    injection hres' with hres'
    subst hres'
    have := (analyze_frame_ok_fields env (frames.get ⟨m, hmf⟩) (1 + m) 1
      r hr').2
    rw [this, Nat.add_comm 1 m]
  rw [ha]
  refine ⟨hlen, ⟨generate_final_report env results, rfl⟩, hts, ?_⟩
  rw [List.pairwise_iff_get]
  intro i j hij
  have hi := hts i (results.get i) (List.get?_eq_get i.isLt)
  have hj := hts j (results.get j) (List.get?_eq_get j.isLt)
  rw [hi, hj, mul_one, mul_one]
  exact_mod_cast Nat.add_le_add_right (Nat.le_of_lt hij) 1

/-- C2 witness: the healthy three-frame run yields three results. -/
theorem pipeline_produces_all_frames_witness :
    (analyze baseEnv reqStd).2.frameResults.length =
      ["frame_0001.jpg", "frame_0002.jpg", "frame_0003.jpg"].length :=
  (pipeline_produces_all_frames baseEnv reqStd
    ["frame_0001.jpg", "frame_0002.jpg", "frame_0003.jpg"]
    rfl rfl (by decide) rfl rfl (by simp)
    (fun p _ => ⟨"IMG", rfl⟩)).1

/-- C9: if a frame file cannot be read (base64 encoding fails) while every
earlier frame encoded fine, `analyze_frame` raises instead of returning an
error-string result — the encode happens before the error-isolating `try` —
and the exception aborts the whole batch: the handler returns a 500 with the
exception message, the loop stops at the failing frame, and synthesis is
never reached. -/
theorem encode_failure_aborts (env : Env) (req : Request)
    (pre post : List String) (p : String) (e : String)
    (hcl : env.clientConfigured = true) (hvf : req.hasVideoField = true)
    (hfn : req.filename ≠ "") (hsave : env.saveOutcome = .ok ())
    (hext : env.extractOutcome = .ok (pre ++ p :: post))
    (henc : ∀ q ∈ pre, ∃ b, env.encode q = Except.ok b)
    (hfail : env.encode p = .error e) :
    (∀ i interval, analyze_frame env p i interval = .error e) ∧
    analyze env req =
      (.error e 500,
       { initCalled := false, dirsCreated := true, dirsRemaining := 0,
         extractCalled := true, frameCalls := pre.length + 1,
         synthCalled := false, frameResults := [] }) := by
  constructor
  · intro i interval
    exact analyze_frame_encode_error env p i interval e hfail
  · have hrun := runFramesFrom_abort env 1 pre 1 p post e henc hfail
    have hne : pre ++ p :: post ≠ [] := by simp
    exact analyze_run_error env req (pre ++ p :: post) hcl hvf hfn hsave hext
      hne (pre.length + 1) e hrun

/-- C9 witness: frame 2 unreadable — `analyze_frame` raises there. -/
theorem encode_failure_aborts_witness :
    analyze_frame envEncodeFail "frame_0002.jpg" 2 1 =
      .error "ファイルが読めません" :=
  (encode_failure_aborts envEncodeFail reqStd ["frame_0001.jpg"]
    ["frame_0003.jpg"] "frame_0002.jpg" "ファイルが読めません"
    rfl rfl (by decide) rfl rfl
    (fun q hq => by
      simp at hq
      subst hq
      exact ⟨"IMG", rfl⟩)
    rfl).1 2 1

/-- C1: a remote vision failure on frame k is isolated.  With every frame
file readable and the vision call for frame number k failing with message e,
the handler still reaches synthesis with one result per frame, the response
is the success response built from those results, the result at position
k−1 carries the inline error string as its content — `analyze_frame` did not
raise — and replacing the vision outcome of frame k by anything else (e.g. a
success) leaves the result of every other frame unchanged. -/
theorem frame_failure_isolated (env : Env) (req : Request)
    (frames : List String) (k : ℕ) (e : String)
    (hcl : env.clientConfigured = true) (hvf : req.hasVideoField = true)
    (hfn : req.filename ≠ "") (hsave : env.saveOutcome = .ok ())
    (hext : env.extractOutcome = .ok frames) (hne : frames ≠ [])
    (henc : ∀ p ∈ frames, ∃ b, env.encode p = Except.ok b)
    (hfail : ∀ b, env.vision k b = .error e) :
    (analyze env req).2.synthCalled = true ∧
    (analyze env req).2.frameResults.length = frames.length ∧
    (analyze env req).1 = Response.success frames.length
      (generate_final_report env (analyze env req).2.frameResults) ∧
    (1 ≤ k → k ≤ frames.length →
      ∃ r, (analyze env req).2.frameResults.get? (k - 1) = some r ∧
        r.content = "エラー: " ++ e) ∧
    (∀ v m, m + 1 ≠ k →
      (analyze (env.withVision k v) req).2.frameResults.get? m =
        (analyze env req).2.frameResults.get? m) := by
  obtain ⟨results, hrun, hlen, hchar⟩ := runFramesFrom_ok env 1 frames 1 henc
  have ha := analyze_run_ok env req frames hcl hvf hfn hsave hext hne results
    frames.length hrun
  rw [ha]
  refine ⟨rfl, hlen, rfl, ?_, ?_⟩
  · intro hk1 hk2
    have hmf : k - 1 < frames.length := by omega
    obtain ⟨r, hr, hres⟩ := hchar (k - 1) (frames.get ⟨k - 1, hmf⟩)
      (List.get?_eq_get hmf)
    rw [show 1 + (k - 1) = k by omega] at hr
    obtain ⟨b, hb⟩ := henc (frames.get ⟨k - 1, hmf⟩)
      (List.get_mem frames (k - 1) hmf)
    rw [analyze_frame_vision_error env (frames.get ⟨k - 1, hmf⟩) k 1 b e hb
      (hfail b)] at hr
    injection hr with hr
    refine ⟨r, hres, ?_⟩
    rw [← hr]
  · intro v m hm
    have henc' : ∀ p ∈ frames, ∃ b, (env.withVision k v).encode p =
        Except.ok b := henc
    obtain ⟨results', hrun', hlen', hchar'⟩ :=
      runFramesFrom_ok (env.withVision k v) 1 frames 1 henc'
    have ha' := analyze_run_ok (env.withVision k v) req frames hcl hvf hfn
      hsave hext hne results' frames.length hrun'
    rw [ha']
    show results'.get? m = results.get? m
    by_cases hmlen : m < frames.length
    · obtain ⟨r, hr, hres⟩ := hchar m (frames.get ⟨m, hmlen⟩)
        (List.get?_eq_get hmlen)
      obtain ⟨r', hr', hres'⟩ := hchar' m (frames.get ⟨m, hmlen⟩)
        (List.get?_eq_get hmlen)
      rw [analyze_frame_withVision_ne env k v (frames.get ⟨m, hmlen⟩)
        (1 + m) 1 (by omega)] at hr'
      rw [hr] at hr'
      injection hr' with hr'
      rw [hres, hres', hr']
    · have h1 : results.get? m = none :=
        List.get?_eq_none.mpr (by omega)
      have h2 : results'.get? m = none :=
        List.get?_eq_none.mpr (by omega)
      rw [h1, h2]

/-- C1 witness: vision fails on frame 2 of three; synthesis still runs. -/
theorem frame_failure_isolated_witness :
    (analyze envFrameFail reqStd).2.synthCalled = true :=
  (frame_failure_isolated envFrameFail reqStd
    ["frame_0001.jpg", "frame_0002.jpg", "frame_0003.jpg"] 2 "接続失敗"
    rfl rfl (by decide) rfl rfl (by simp)
    (fun p _ => ⟨"IMG", rfl⟩) (fun b => rfl)).1

/-- C8: in the healthy three-frame run at interval 1.0 the three results
carry `time_seconds` 1.0, 2.0, 3.0 and display timestamps "00:01.0",
"00:02.0", "00:03.0" — index × interval rendered as zero-padded minutes, a
colon, and zero-padded seconds with one decimal digit. -/
theorem three_frame_run :
    ((analyze baseEnv reqStd).2.frameResults.map
      (fun r => (r.time_seconds, r.timestamp))) =
      [(1, "00:01.0"), (2, "00:02.0"), (3, "00:03.0")] := by
  have h1 : analyze_frame baseEnv "frame_0001.jpg" 1 1 =
      .ok { timestamp := formatTime (((1 : ℕ) : ℚ) * 1),
            time_seconds := ((1 : ℕ) : ℚ) * 1,
            content := "内容: 人物 | テキスト: なし" } :=
    analyze_frame_vision_ok baseEnv "frame_0001.jpg" 1 1 "IMG"
      "内容: 人物 | テキスト: なし" rfl rfl
  have h2 : analyze_frame baseEnv "frame_0002.jpg" 2 1 =
      .ok { timestamp := formatTime (((2 : ℕ) : ℚ) * 1),
            time_seconds := ((2 : ℕ) : ℚ) * 1,
            content := "内容: 人物 | テキスト: なし" } :=
    analyze_frame_vision_ok baseEnv "frame_0002.jpg" 2 1 "IMG"
      "内容: 人物 | テキスト: なし" rfl rfl
  have h3 : analyze_frame baseEnv "frame_0003.jpg" 3 1 =
      .ok { timestamp := formatTime (((3 : ℕ) : ℚ) * 1),
            time_seconds := ((3 : ℕ) : ℚ) * 1,
            content := "内容: 人物 | テキスト: なし" } :=
    analyze_frame_vision_ok baseEnv "frame_0003.jpg" 3 1 "IMG"
      "内容: 人物 | テキスト: なし" rfl rfl
  have hrun : runFramesFrom baseEnv 1 1
      ["frame_0001.jpg", "frame_0002.jpg", "frame_0003.jpg"] =
      (3, .ok
        [{ timestamp := formatTime (((1 : ℕ) : ℚ) * 1),
           time_seconds := ((1 : ℕ) : ℚ) * 1,
           content := "内容: 人物 | テキスト: なし" },
         { timestamp := formatTime (((2 : ℕ) : ℚ) * 1),
           time_seconds := ((2 : ℕ) : ℚ) * 1,
           content := "内容: 人物 | テキスト: なし" },
         { timestamp := formatTime (((3 : ℕ) : ℚ) * 1),
           time_seconds := ((3 : ℕ) : ℚ) * 1,
           content := "内容: 人物 | テキスト: なし" }]) := by
    simp [runFramesFrom, h1, h2, h3]
  have ha := analyze_run_ok baseEnv reqStd
    ["frame_0001.jpg", "frame_0002.jpg", "frame_0003.jpg"]
    rfl rfl (by decide) rfl rfl (by simp) _ 3 hrun
  have f1 : formatTime (((1 : ℕ) : ℚ) * 1) = "00:01.0" := by
    rw [mul_one, formatTime_natCast]
    decide
  have f2 : formatTime (((2 : ℕ) : ℚ) * 1) = "00:02.0" := by
    rw [mul_one, formatTime_natCast]
    decide
  have f3 : formatTime (((3 : ℕ) : ℚ) * 1) = "00:03.0" := by
    rw [mul_one, formatTime_natCast]
    decide
  have c1 : ((1 : ℕ) : ℚ) * 1 = 1 := by norm_num
  have c2 : ((2 : ℕ) : ℚ) * 1 = 2 := by norm_num
  have c3 : ((3 : ℕ) : ℚ) * 1 = 3 := by norm_num
  have g1 : formatTime (1 : ℚ) = "00:01.0" := by
    rw [show (1 : ℚ) = ((1 : ℕ) : ℚ) by norm_num, formatTime_natCast]
    decide
  have g2 : formatTime (2 : ℚ) = "00:02.0" := by
    rw [show (2 : ℚ) = ((2 : ℕ) : ℚ) by norm_num, formatTime_natCast]
    decide
  have g3 : formatTime (3 : ℚ) = "00:03.0" := by
    rw [show (3 : ℚ) = ((3 : ℕ) : ℚ) by norm_num, formatTime_natCast]
    decide
  rw [ha]
  simp [f1, f2, f3, c1, c2, c3, g1, g2, g3]

end VideoAnalysis
